import Mathlib

/-!
Shallow embedding of the `polymarket_mvp` trading engine (Python) in Lean 4,
together with theorems settling the frozen claims about its specification.

Conventions of the embedding:
* Python floats are modelled as exact rationals (`ℚ`); float rounding is
  idealised away, which is the standard shallow-embedding reading of the
  arithmetic in the source.
* Mutable module-level state and the wall clock are passed explicitly as
  function arguments; fallible functions (Python `raise`) return `Except`.
* Transcendental float functions (`math.exp`, `math.sqrt`, `math.tanh`) and
  the RNG (`random.gauss`) have no exact rational counterpart; they are taken
  as explicit function parameters (`expQ`, `sqrtQ`, `tanhQ`, `draws`) so that
  every theorem below holds for the actual transcendental functions in
  particular.  Concrete instantiations in counterexamples are chosen so that
  the abstracted functions are only applied at points where they agree with
  the real ones (e.g. `tanh 0 = 0`), or are not consulted at all.
-/

namespace PolymarketMvp

/-! ## Ledger: `sim/paper.py` -/

/-- `PaperPosition` from `models.py` (fields used by the ledger operations).
`tp35_taken` mirrors the dynamically-set attribute read in `run_once` via
`getattr(open_pos, "tp35_taken", False)`. -/
structure PaperPosition where
  market_id : String
  market_name : String := ""
  side : String
  status : String := "open"
  size_usd : ℚ
  qty : ℚ := 0
  entry_price : ℚ
  exit_price : Option ℚ := none
  pnl_usd : Option ℚ := none
  opened_at : String := ""
  closed_at : Option String := none
  model : String := ""
  close_model : Option String := none
  tp35_taken : Bool := false
  deriving Repr, DecidableEq

/-- `RunState` from `models.py`. -/
structure RunState where
  cash_usd : ℚ
  positions : List PaperPosition := []
  closed_positions : List PaperPosition := []
  realized_pnl_usd : ℚ := 0
  deriving Repr, DecidableEq

/-- `sim/paper.py: open_position`.  The wall-clock ISO timestamp written into
`opened_at` is passed explicitly as `now_iso`.  A Python `raise ValueError`
is modelled as `Except.error`; on error the caller's state is untouched
(in the source the `raise` happens before any mutation). -/
def open_position (state : RunState) (market_id market_name side : String)
    (entry_price size_usd : ℚ) (model now_iso : String) :
    Except String (RunState × PaperPosition) :=
  let size := min size_usd state.cash_usd
  if size ≤ 0 ∨ entry_price ≤ 0 then .error "invalid_open"
  else
    let qty := size / entry_price
    let pos : PaperPosition :=
      { market_id := market_id, market_name := market_name, side := side,
        status := "open", size_usd := size, qty := qty,
        entry_price := entry_price, opened_at := now_iso, model := model }
    .ok ({ state with cash_usd := state.cash_usd - size,
                      positions := state.positions ++ [pos] }, pos)

/-- `sim/paper.py: close_fraction`.  Returns the updated state, the updated
position record (the source mutates `pos` in place) and the realized pnl.
The early return on a clamped fraction `f ≤ 0` leaves the state untouched. -/
def close_fraction (state : RunState) (pos : PaperPosition)
    (exit_price fraction : ℚ) :
    Except String (RunState × PaperPosition × ℚ) :=
  if exit_price ≤ 0 then .error "invalid_close"
  else
    let f := max 0 (min 1 fraction)
    if f ≤ 0 then .ok (state, pos, 0)
    else
      let close_qty := pos.qty * f
      let close_notional := pos.size_usd * f
      let proceeds := close_qty * exit_price
      let pnl := proceeds - close_notional
      .ok ({ state with cash_usd := state.cash_usd + proceeds,
                        realized_pnl_usd := state.realized_pnl_usd + pnl },
           { pos with qty := max 0 (pos.qty - close_qty),
                      size_usd := max 0 (pos.size_usd - close_notional) },
           pnl)

/-- `sim/paper.py: close_position`.  `now_iso` stands for the wall-clock
timestamp written into `closed_at`. -/
def close_position (state : RunState) (pos : PaperPosition)
    (exit_price : ℚ) (now_iso : String) :
    Except String (RunState × PaperPosition × ℚ) :=
  match close_fraction state pos exit_price 1 with
  | .error e => .error e
  | .ok (st, pos1, pnl) =>
    let pos2 := { pos1 with
      status := "closed",
      exit_price := some exit_price,
      pnl_usd := some ((pos.pnl_usd.getD 0) + pnl),
      closed_at := some now_iso }
    .ok ({ st with
           positions := st.positions.filter
             (fun p => !(p.market_id = pos.market_id ∧ p.opened_at = pos.opened_at : Bool)),
           closed_positions := st.closed_positions ++ [pos2] },
         pos2, pnl)

/-! ## Snapshot fetcher: `adapters/clob.py` -/

/-- One order-book level (`{"price": .., "size": ..}` in the REST payload). -/
structure Level where
  price : ℚ
  size : ℚ
  deriving Repr, DecidableEq

/-- A REST order book `{bids: [...], asks: [...]}`. -/
structure Book where
  bids : List Level
  asks : List Level
  deriving Repr, DecidableEq

/-- `ClobAdapter._best_ask`: minimum of the strictly positive level prices,
`0` when there is none. -/
def best_ask (levels : List Level) : ℚ :=
  match (levels.map Level.price).filter (fun p => decide (0 < p)) with
  | [] => 0
  | v :: vs => vs.foldl min v

/-- `ClobAdapter._best_bid`: maximum of the strictly positive level prices,
`0` when there is none. -/
def best_bid (levels : List Level) : ℚ :=
  match (levels.map Level.price).filter (fun p => decide (0 < p)) with
  | [] => 0
  | v :: vs => vs.foldl max v

/-- `ClobAdapter._depth_usd`: price·size summed over the first `depth_n`
levels. -/
def depth_usd (levels : List Level) (depth_n : ℕ) : ℚ :=
  ((levels.take depth_n).map (fun l => l.price * l.size)).sum

/-- The fields of `GammaMarketRef` consumed by the snapshot fetcher. -/
structure GammaMarketRef where
  market_id : String
  question : String := ""
  yes_token : String
  no_token : String
  accepting_orders : Bool := true
  liquidity_num : ℚ := 0
  yes_price_hint : ℚ := 0
  no_price_hint : ℚ := 0
  deriving Repr, DecidableEq

/-- `MarketSnapshot` from `models.py`. -/
structure MarketSnapshot where
  market_id : String
  token_id : String
  question : String := ""
  yes_bid : ℚ
  yes_ask : ℚ
  no_bid : ℚ
  no_ask : ℚ
  depth_usd : ℚ
  accepting_orders : Bool := true
  yes_hint : ℚ := 0
  no_hint : ℚ := 0
  yes_asks : List Level := []
  no_asks : List Level := []
  deriving Repr, DecidableEq

/-- A ref together with the outcome of the two `_fetch_book` HTTP calls
(`none` models a failed fetch or a falsy/empty book dict). -/
structure FetchItem where
  ref : GammaMarketRef
  yes_book : Option Book
  no_book : Option Book
  deriving Repr, DecidableEq

/-- `ClobAdapter.fetch_snapshots_from_refs`, with the HTTP responses passed in
explicitly per ref.  Mirrors the skip conditions of the source: missing book,
non-positive best ask on either side, and the dead-book filter. -/
def fetch_snapshots_from_refs : List FetchItem → List MarketSnapshot
  | [] => []
  | ⟨ref, some yBook, some nBook⟩ :: rest =>
      if best_ask yBook.asks ≤ 0 ∨ best_ask nBook.asks ≤ 0 then
        fetch_snapshots_from_refs rest
      else if best_ask yBook.asks ≥ 197/200 ∧ best_ask nBook.asks ≥ 197/200 ∧
          best_bid yBook.bids ≤ 3/200 ∧ best_bid nBook.bids ≤ 3/200 ∧
          depth_usd yBook.bids 3 + depth_usd nBook.bids 3 < 25 then
        fetch_snapshots_from_refs rest
      else
        { market_id := ref.market_id,
          token_id := ref.yes_token,
          question := ref.question,
          yes_bid := best_bid yBook.bids,
          yes_ask := best_ask yBook.asks,
          no_bid := best_bid nBook.bids,
          no_ask := best_ask nBook.asks,
          depth_usd := max (depth_usd yBook.bids 5 + depth_usd nBook.bids 5)
            ref.liquidity_num,
          accepting_orders := ref.accepting_orders,
          yes_hint := ref.yes_price_hint,
          no_hint := ref.no_price_hint,
          yes_asks := yBook.asks.take 12,
          no_asks := nBook.asks.take 12 } :: fetch_snapshots_from_refs rest
  | ⟨_, some _, none⟩ :: rest => fetch_snapshots_from_refs rest
  | ⟨_, none, _⟩ :: rest => fetch_snapshots_from_refs rest

/-! ## Monte-Carlo sub-model: `main.py: _mc_target_probs` -/

/-- Python `int()` truncation toward zero on a rational. -/
def pyTrunc (q : ℚ) : ℤ := q.num / (q.den : ℤ)

/-- One simulated path of `_mc_target_probs`: starting from `current`,
repeatedly apply the per-second GBM update `p * exp((mu - sig²/2)·dt +
sig·√dt·z)` for each Gaussian draw `z`, remembering whether the price ever
reached `target` after an update.  The per-step update (including the
transcendental `exp`) is abstracted as `step : price → draw → price`; every
statement about it holds for the actual GBM update in particular.  Returns
(final price, touched flag). -/
def mcPath (step : ℚ → ℚ → ℚ) (target : ℚ) : ℚ → Bool → List ℚ → ℚ × Bool
  | p, touched, [] => (p, touched)
  | p, touched, z :: zs =>
    let p' := step p z
    mcPath step target p' (touched || decide (target ≤ p')) zs

/-- The list of simulated paths of `_mc_target_probs`: path `i` consumes the
draws `draws i 0 … draws i (n-1)` with `n = max(1, int(min(900, t_left_s)))`
exactly as the source's nested loop does. -/
def mcRuns (step : ℚ → ℚ → ℚ) (draws : ℕ → ℕ → ℚ)
    (current target t_left_s : ℚ) (paths : ℕ) : List (ℚ × Bool) :=
  (List.range paths).map
    (fun i => mcPath step target current false
      ((List.range ((max 1 (pyTrunc (min 900 t_left_s))).toNat)).map (draws i)))

/-- `main.py: _mc_target_probs`.  `draws i j` is the Gaussian draw consumed by
path `i` at step `j` (the module-level `random.gauss` stream, reindexed per
path); `step` is the abstracted GBM per-second update (drift and volatility
are baked into `step`).  Returns the fractions of paths closing at-or-above
the target and touching the target. -/
def mc_target_probs (step : ℚ → ℚ → ℚ) (draws : ℕ → ℕ → ℚ)
    (current target t_left_s : ℚ) (paths : ℕ) : ℚ × ℚ :=
  if current ≤ 0 ∨ target ≤ 0 then (1/2, 1/2)
  else
    (((mcRuns step draws current target t_left_s paths).countP
        (fun r => decide (target ≤ r.1)) : ℚ) / (paths : ℚ),
     ((mcRuns step draws current target t_left_s paths).countP
        (fun r => r.2) : ℚ) / (paths : ℚ))

/-! ## Close-decision ladder: `main.py: run_once`, lines 1405–1471 -/

/-- The per-position inputs of the close ladder, as they stand right before
the `if`-chain in `run_once`: the position, the per-row model outputs, the
clocks and the relevant strategy-config values.  `edge_peak` is the stored
peak value before the `max` update of this cycle. -/
structure CloseCtx where
  pos_side : String
  model_tag : String
  tp35_taken : Bool
  entry : ℚ
  mark_price : ℚ
  row_side : String
  conf : ℚ
  held_s : ℚ
  held_edge : ℚ
  opp_edge : ℚ
  edge_peak : ℚ
  winner_side : String
  reversal_belief : Bool
  t_left_s : ℚ
  end_ts : ℚ
  now_ts : ℚ
  flip_signal_conf_min : ℚ
  flip_stop_loss_pct : ℚ
  buy_no_flip_stop_loss_pct : ℚ
  min_hold_for_flip_exit_s : ℚ
  deriving Repr, DecidableEq

/-- Unrealized pnl `(mark/entry - 1)`, 0 when the entry price is 0. -/
def u_pnl (c : CloseCtx) : ℚ :=
  if 0 < c.entry then (c.mark_price - c.entry) / c.entry else 0

/-- Time to market end from `end_ts`, the large sentinel when unknown. -/
def t_left (c : CloseCtx) : ℚ :=
  if 0 < c.end_ts then c.end_ts - c.now_ts else 999999

/-- Signal flip: the row's model side differs from the held side with enough
confidence. -/
def flipSignal (c : CloseCtx) : Prop :=
  c.row_side ≠ c.pos_side ∧ c.flip_signal_conf_min ≤ c.conf

/-- The position was opened by the impulse-scalp path. -/
def isScalp (c : CloseCtx) : Prop :=
  c.model_tag.startsWith "SCALP:" = true

/-- The edge peak after this cycle's `max` update. -/
def edgePeak (c : CloseCtx) : ℚ := max c.edge_peak c.held_edge

instance (c : CloseCtx) : Decidable (flipSignal c) :=
  inferInstanceAs (Decidable (c.row_side ≠ c.pos_side ∧
    c.flip_signal_conf_min ≤ c.conf))

instance (c : CloseCtx) : Decidable (isScalp c) :=
  inferInstanceAs (Decidable (c.model_tag.startsWith "SCALP:" = true))

/-- The close ladder of `run_once` (lines 1433–1471), translated if-for-if:
the first matching rule decides the close reason and fraction; `none` means
hold. -/
def closeDecision (c : CloseCtx) : Option (String × ℚ) :=
  if 99/100 ≤ c.mark_price then some ("resolved_win_proxy", 1)
  else if c.mark_price ≤ 1/100 then some ("resolved_loss_proxy", 1)
  else if u_pnl c ≤ -(1/4) then some ("hard_stop_25", 1)
  else if flipSignal c ∧ u_pnl c ≤ (if c.pos_side = "BUY_NO" then
      c.buy_no_flip_stop_loss_pct else c.flip_stop_loss_pct) then
    some ("flip_stop", 1)
  else if isScalp c ∧ 1/50 ≤ u_pnl c then some ("scalp_take_quick", 1)
  else if isScalp c ∧ 30 ≤ c.held_s then some ("scalp_timeout", 1)
  else if isScalp c ∧ c.held_edge < 1/250 then some ("scalp_edge_faded", 1)
  else if c.min_hold_for_flip_exit_s ≤ c.held_s ∧ c.held_edge ≤ -(3/250) ∧
      1/40 ≤ c.opp_edge then some ("edge_flip_wrong_way", 1)
  else if c.min_hold_for_flip_exit_s ≤ c.held_s ∧ c.held_edge < 0 ∧
      u_pnl c < 0 then some ("edge_decay_stop", 1)
  else if c.min_hold_for_flip_exit_s ≤ c.held_s ∧ 0 < edgePeak c ∧
      c.held_edge < 9/20 * edgePeak c ∧ 0 < u_pnl c then
    some ("edge_trailing_stop", 1)
  else if c.pos_side ≠ c.winner_side ∧ ¬ (c.reversal_belief = true) ∧
      c.t_left_s < 300 then some ("against_winner_no_reversal", 1)
  else if t_left c < 45 then some ("time_lt_45s", 1)
  else if t_left c < 90 ∧ 0 < u_pnl c then some ("time_lt_90s_bank", 1)
  else if t_left c < 180 ∧ c.conf < 58 then some ("time_lt_180s_low_conf", 1)
  else if 1/2 ≤ u_pnl c then some ("tp_50", 1)
  else if 7/20 ≤ u_pnl c ∧ c.tp35_taken = false then some ("tp_35_half", 1/2)
  else none

/-- The spec's ordered close ladder, one `(condition, reason, fraction)`
triple per rule, in the spec's order. -/
def closeRules (c : CloseCtx) : List (Bool × String × ℚ) :=
  [ (decide (99/100 ≤ c.mark_price), "resolved_win_proxy", 1),
    (decide (c.mark_price ≤ 1/100), "resolved_loss_proxy", 1),
    (decide (u_pnl c ≤ -(1/4)), "hard_stop_25", 1),
    (decide (flipSignal c ∧ u_pnl c ≤ (if c.pos_side = "BUY_NO" then
        c.buy_no_flip_stop_loss_pct else c.flip_stop_loss_pct)), "flip_stop", 1),
    (decide (isScalp c ∧ 1/50 ≤ u_pnl c), "scalp_take_quick", 1),
    (decide (isScalp c ∧ 30 ≤ c.held_s), "scalp_timeout", 1),
    (decide (isScalp c ∧ c.held_edge < 1/250), "scalp_edge_faded", 1),
    (decide (c.min_hold_for_flip_exit_s ≤ c.held_s ∧ c.held_edge ≤ -(3/250) ∧
        1/40 ≤ c.opp_edge), "edge_flip_wrong_way", 1),
    (decide (c.min_hold_for_flip_exit_s ≤ c.held_s ∧ c.held_edge < 0 ∧
        u_pnl c < 0), "edge_decay_stop", 1),
    (decide (c.min_hold_for_flip_exit_s ≤ c.held_s ∧ 0 < edgePeak c ∧
        c.held_edge < 9/20 * edgePeak c ∧ 0 < u_pnl c), "edge_trailing_stop", 1),
    (decide (c.pos_side ≠ c.winner_side ∧ ¬ (c.reversal_belief = true) ∧
        c.t_left_s < 300), "against_winner_no_reversal", 1),
    (decide (t_left c < 45), "time_lt_45s", 1),
    (decide (t_left c < 90 ∧ 0 < u_pnl c), "time_lt_90s_bank", 1),
    (decide (t_left c < 180 ∧ c.conf < 58), "time_lt_180s_low_conf", 1),
    (decide (1/2 ≤ u_pnl c), "tp_50", 1),
    (decide (7/20 ≤ u_pnl c ∧ c.tp35_taken = false), "tp_35_half", 1/2) ]

/-- First-match-wins semantics over an ordered rule list. -/
def firstMatch : List (Bool × String × ℚ) → Option (String × ℚ)
  | [] => none
  | (cond, r, f) :: rest => if cond then some (r, f) else firstMatch rest

/-- A close context with mark 0.995 where later ladder rules (`tp_50`,
`time_lt_45s`) also fire, to witness C1's precedence statement. -/
def c1Ctx : CloseCtx :=
  { pos_side := "BUY_YES", model_tag := "TA", tp35_taken := false,
    entry := 1/2, mark_price := 199/200, row_side := "BUY_YES", conf := 50,
    held_s := 100, held_edge := 0, opp_edge := 0, edge_peak := 0,
    winner_side := "BUY_YES", reversal_belief := false, t_left_s := 10,
    end_ts := 10, now_ts := 0, flip_signal_conf_min := 62,
    flip_stop_loss_pct := -(3/25), buy_no_flip_stop_loss_pct := -(1/10),
    min_hold_for_flip_exit_s := 20 }

/-- Decidable equality for `Except` results, used to evaluate the embedded
operations on concrete inputs. -/
def exceptDecEq {ε α : Type} [DecidableEq ε] [DecidableEq α] :
    DecidableEq (Except ε α)
  | .error a, .error b =>
    if h : a = b then .isTrue (by rw [h]) else .isFalse (by simp [h])
  | .error _, .ok _ => .isFalse (by simp)
  | .ok _, .error _ => .isFalse (by simp)
  | .ok a, .ok b =>
    if h : a = b then .isTrue (by rw [h]) else .isFalse (by simp [h])

instance {ε α : Type} [DecidableEq ε] [DecidableEq α] :
    DecidableEq (Except ε α) := exceptDecEq

/-- Concrete ledger state used to witness the round-trip theorems. -/
def rtState : RunState := { cash_usd := 10 }

/-- Position produced by opening 4 USD at entry price 1/2 on `rtState`. -/
def rtPos : PaperPosition :=
  { market_id := "m", market_name := "n", side := "BUY_YES",
    size_usd := 4, qty := 8, entry_price := 1/2, opened_at := "t0", model := "TA" }

/-- State after the open: 4 USD moved from cash into the position. -/
def rtSt1 : RunState := { cash_usd := 6, positions := [rtPos] }

/-- The position record after the full close at exit price 1/2. -/
def rtPos2 : PaperPosition :=
  { rtPos with
    status := "closed",
    qty := 0,
    size_usd := 0,
    exit_price := some (1/2),
    pnl_usd := some 0,
    closed_at := some "t1" }

/-- State after the close: cash restored, position archived. -/
def rtSt2 : RunState := { cash_usd := 10, closed_positions := [rtPos2] }

/-- All level prices of a fetched book are at most 1 (the well-formed-input
hypothesis under which price bounds can be preserved). -/
def bookBounded (b? : Option Book) : Prop :=
  ∀ b ∈ b?, (∀ l ∈ b.bids, l.price ≤ 1) ∧ (∀ l ∈ b.asks, l.price ≤ 1)

/-- All books of all fetch items are price-bounded by 1. -/
def priceBounded (items : List FetchItem) : Prop :=
  ∀ item ∈ items, bookBounded item.yes_book ∧ bookBounded item.no_book

/-- Fetch input with an empty YES-bids book: realistic thin-book data. -/
def cx3Item1 : FetchItem :=
  { ref := { market_id := "m1", yes_token := "y1", no_token := "n1" },
    yes_book := some { bids := [], asks := [⟨1/2, 10⟩] },
    no_book := some { bids := [⟨2/5, 10⟩], asks := [⟨3/5, 10⟩] } }

/-- Fetch input whose YES ask exceeds 1 and whose NO book is crossed. -/
def cx3Item2 : FetchItem :=
  { ref := { market_id := "m2", yes_token := "y2", no_token := "n2" },
    yes_book := some { bids := [⟨4/5, 1⟩], asks := [⟨3/2, 1⟩] },
    no_book := some { bids := [⟨7/10, 1⟩], asks := [⟨3/5, 1⟩] } }

/-- The snapshot the fetcher produces from `cx3Item1`: `yes_bid = 0`. -/
def cx3Snap1 : MarketSnapshot :=
  { market_id := "m1", token_id := "y1", yes_bid := 0, yes_ask := 1/2,
    no_bid := 2/5, no_ask := 3/5, depth_usd := 4,
    yes_asks := [⟨1/2, 10⟩], no_asks := [⟨3/5, 10⟩] }

/-- The snapshot the fetcher produces from `cx3Item2`: `yes_ask > 1` and
`no_ask < no_bid`. -/
def cx3Snap2 : MarketSnapshot :=
  { market_id := "m2", token_id := "y2", yes_bid := 4/5, yes_ask := 3/2,
    no_bid := 7/10, no_ask := 3/5, depth_usd := 3/2,
    yes_asks := [⟨3/2, 1⟩], no_asks := [⟨3/5, 1⟩] }

/-- Well-formed fetch input (the demo book from `fetch_snapshots`) used to
witness the amended C3 theorem. -/
def w3Item : FetchItem :=
  { ref := { market_id := "demo", yes_token := "ty", no_token := "tn" },
    yes_book := some { bids := [⟨47/100, 20⟩], asks := [⟨49/100, 20⟩] },
    no_book := some { bids := [⟨51/100, 20⟩], asks := [⟨53/100, 20⟩] } }

/-- The snapshot produced from `w3Item`. -/
def w3Snap : MarketSnapshot :=
  { market_id := "demo", token_id := "ty", yes_bid := 47/100, yes_ask := 49/100,
    no_bid := 51/100, no_ask := 53/100, depth_usd := 98/5,
    yes_asks := [⟨49/100, 20⟩], no_asks := [⟨53/100, 20⟩] }

/-! ## Limit-close execution ladder: `main.py: _round_price`,
`_build_close_order`, `_resolve_limit_close` -/

/-- Python 3 `round()` to an integer: round half to even. -/
def pyRound (q : ℚ) : ℤ :=
  let f := ⌊q⌋
  let r := q - (f : ℚ)
  if r < 1/2 then f
  else if 1/2 < r then f + 1
  else if f % 2 = 0 then f else f + 1

/-- Python 3 `round(x, dp)`: round half to even at `dp` decimal places. -/
def pyRoundDp (q : ℚ) (dp : ℕ) : ℚ :=
  ((pyRound (q * 10 ^ dp) : ℚ)) / 10 ^ dp

/-- `main.py: _round_price`: snap a price to the tick grid, then round the
result to 6 decimals. -/
def round_price (px tick : ℚ) : ℚ :=
  if tick ≤ 0 then px
  else pyRoundDp ((pyRound (px / tick) : ℚ) * tick) 6

/-- The dict returned by `_build_close_order`. -/
structure CloseOrder where
  mode : String
  taker_price : ℚ
  limit_price : Option ℚ
  bid : ℚ
  ask : ℚ
  deriving Repr, DecidableEq

/-- `main.py: _build_close_order`, for a position on `side` given the row's
best bids/asks and the execution config. -/
def build_close_order (side : String) (bid_yes ask_yes bid_no ask_no : ℚ)
    (close_mode : String) (tick : ℚ) (improve_ticks : ℤ) : CloseOrder :=
  let bid := if side = "BUY_YES" then bid_yes else bid_no
  let ask := if side = "BUY_YES" then ask_yes else ask_no
  let taker_px := if 0 < bid then bid else ask
  if close_mode = "market" then
    { mode := "market", taker_price := taker_px, limit_price := none,
      bid := bid, ask := ask }
  else
    let target := if 0 < bid ∧ 0 < ask ∧ bid ≤ ask then
        min ask (bid + (improve_ticks : ℚ) * tick)
      else if 0 < ask then ask else bid
    { mode := "limit_first", taker_price := taker_px,
      limit_price := some (round_price target tick), bid := bid, ask := ask }

/-- The `_PENDING_CLOSES` entry for a position. -/
structure PendingClose where
  created_ts : ℚ
  last_reprice_ts : ℚ
  attempts : ℤ
  limit_price : ℚ
  reason : String
  deriving Repr, DecidableEq

/-- The default of `execution.close_force_taker_reasons` in
`_resolve_limit_close`. -/
def defaultForceReasons : List String :=
  ["hard_stop_25", "resolved_loss_proxy", "flip_stop"]

/-- `main.py: _resolve_limit_close`.  The per-position `_PENDING_CLOSES` entry
is passed in as `pending` and the updated entry is returned as the third
component (`none` = entry removed).  Returns (fill price if any, execution
tag if any, new pending entry).  The informational `meta` dict of the source
is not modelled. -/
def resolve_limit_close (timeout_s reprice_s tick : ℚ)
    (force_reasons : List String) (now_ts : ℚ)
    (pending : Option PendingClose) (close_reason : String)
    (order : CloseOrder) : Option ℚ × Option String × Option PendingClose :=
  if close_reason ∈ force_reasons then
    ((if 0 < order.taker_price then some order.taker_price else none),
     some "close_force_taker", none)
  else
    let bid := order.bid
    let ask := order.ask
    let taker_px := order.taker_price
    let limit_px := order.limit_price.getD 0
    let st : PendingClose :=
      match pending with
      | none =>
        { created_ts := now_ts, last_reprice_ts := now_ts, attempts := 1,
          limit_price := limit_px, reason := close_reason }
      | some st0 =>
        if reprice_s ≤ now_ts - st0.last_reprice_ts then
          { st0 with
            attempts := st0.attempts + 1,
            last_reprice_ts := now_ts,
            limit_price := if 0 < bid then
                round_price (min (if st0.limit_price = 0 then limit_px
                  else st0.limit_price) (bid + tick)) tick
              else st0.limit_price }
        else st0
    if 0 < bid ∧ 0 < st.limit_price ∧ st.limit_price ≤ bid then
      (some st.limit_price, some "close_limit_fill", none)
    else if timeout_s ≤ now_ts - st.created_ts then
      let px := if 0 < taker_px then taker_px else if 0 < bid then bid else ask
      ((if 0 < px then some px else none), some "close_limit_timeout_fallback", none)
    else (none, none, some st)

/-- Close order for a BUY_YES position whose mark (`ask_yes`) is 0.995 under
`limit_first` mode (tick 0.001, improve 1): limit posts at 0.991. -/
def c4Order : CloseOrder :=
  build_close_order "BUY_YES" (99/100) (199/200) 0 0 "limit_first" (1/1000) 1

/-- A close context identical to `c1Ctx` (mark 0.995 on BUY_YES), used to link
the ladder's `resolved_win_proxy` decision to the execution path. -/
def c4Ctx : CloseCtx :=
  { pos_side := "BUY_YES", model_tag := "TA", tp35_taken := false,
    entry := 3/5, mark_price := 199/200, row_side := "BUY_YES", conf := 70,
    held_s := 5, held_edge := 1/10, opp_edge := 0, edge_peak := 1/10,
    winner_side := "BUY_YES", reversal_belief := false, t_left_s := 600,
    end_ts := 600, now_ts := 0, flip_signal_conf_min := 62,
    flip_stop_loss_pct := -(3/25), buy_no_flip_stop_loss_pct := -(1/10),
    min_hold_for_flip_exit_s := 20 }

/-! ## Sizing: `main.py: run_once`, lines 1331–1339 -/

/-- Confidence-weighted size multiplier; scalp entries are capped at 0.65. -/
def size_mul (conf : ℚ) (scalp : Bool) : ℚ :=
  let m := max (1/2) (min 1 (1/2 + conf / 100 * (3/5)))
  if scalp then min m (13/20) else m

/-- The notional requested for an approved open:
`min(trade_cap·mul, max(1, cash·max_trade_cash_fraction), cash)`. -/
def size_usd (trade_cap cash max_trade_cash_fraction mul : ℚ) : ℚ :=
  min (trade_cap * mul) (min (max 1 (cash * max_trade_cash_fraction)) cash)

/-! ## Re-entry cooldown and open guards: `main.py: run_once`,
lines 1239–1305 -/

/-- Close reasons that select the flip re-entry cooldown base. -/
def flipCooldownReasons : List String :=
  ["edge_flip_wrong_way", "edge_decay_stop", "flip_stop"]

/-- The effective re-entry cooldown of `run_once` (lines 1244–1257): base or
flip base, winner-side multiplier, same-side-loss 1.35 multiplier, hard-stop
and wrong-way floors. -/
def effective_cooldown (base_s flip_s buy_yes_mult buy_no_mult : ℚ)
    (last_reason last_side winner_side : String) (last_pnl : ℚ) : ℚ :=
  let c1 := if last_reason ∈ flipCooldownReasons then flip_s else base_s
  let c2 := if winner_side = "BUY_YES" then c1 * buy_yes_mult
    else if winner_side = "BUY_NO" then c1 * buy_no_mult else c1
  let c3 := if winner_side = last_side ∧ last_pnl ≤ 0 then c2 * (27/20) else c2
  let c4 := if last_reason = "hard_stop_25" ∧ winner_side = last_side then
      max c3 600 else c3
  if last_reason = "against_winner_no_reversal" ∨
      last_reason = "edge_flip_wrong_way" then max c4 420 else c4

/-- `cool_ok` of `run_once` (line 1261): strictly more than the cooldown has
elapsed since the last close, and neither the market lock nor the global open
pause is active. -/
def cool_ok (now_epoch last_close_ts cooldown lock_until pause_until : ℚ) : Bool :=
  decide (cooldown < now_epoch - last_close_ts) &&
    decide (lock_until ≤ now_epoch) && decide (pause_until ≤ now_epoch)

/-- `normal_open_ok` of `run_once` (line 1301): the conjunction of the trend
open guards; `cool` is the `cool_ok` value. -/
def normal_open_ok (open_pos_none : Bool) (conf conf_floor : ℚ)
    (consensus consensus_floor : ℚ) (side_edge required_edge : ℚ)
    (persist : ℕ) (open_count max_open : ℕ) (cool : Bool)
    (late_contrarian_block low_stability_block impulse_against : Bool) : Bool :=
  open_pos_none && decide (conf_floor ≤ conf) &&
    decide (consensus_floor ≤ consensus) && decide (required_edge ≤ side_edge) &&
    decide (3 ≤ persist) && decide (open_count < max_open) && cool &&
    !late_contrarian_block && !low_stability_block && !impulse_against

/-- `scalp_open_ok` of `run_once` (line 1305). -/
def scalp_open_ok (open_pos_none : Bool) (impulse_side : Option String)
    (impulse_bps scalp_req impulse_edge : ℚ) (open_count max_open : ℕ)
    (cool : Bool) (t_left_s : ℚ) : Bool :=
  open_pos_none &&
    decide (impulse_side = some "BUY_YES" ∨ impulse_side = some "BUY_NO") &&
    decide (scalp_req ≤ |impulse_bps|) && decide (1/50 ≤ impulse_edge) &&
    decide (open_count < max_open) && cool && decide (75 ≤ t_left_s)

/-- A pending limit-close entry used in the C4 scenarios. -/
def c4Pend : PendingClose :=
  { created_ts := 990
    last_reprice_ts := 996
    attempts := 2
    limit_price := 991/1000
    reason := "hard_stop_25" }

/-- The pending entry `_resolve_limit_close` creates for a fresh
`resolved_win_proxy` close of `c4Order` at `now_ts = 1000`. -/
def c4PendWin : PendingClose :=
  { created_ts := 1000
    last_reprice_ts := 1000
    attempts := 1
    limit_price := 991/1000
    reason := "resolved_win_proxy" }

/-! ## Forecaster: `main.py: _model_weight`, `_model_compare` -/

/-- The `signal` dict fields consumed by `_model_compare`. -/
structure SignalIn where
  p_up : ℚ
  rf : ℚ
  rs : ℚ
  sigma : ℚ
  rsi_n : ℚ
  lead_bps : ℚ
  deriving Repr, DecidableEq

/-- The `row` dict fields consumed by `_model_compare` (the `or 0.0`
fallbacks are folded into the field values). -/
structure RowIn where
  best_ask_yes : ℚ
  best_ask_no : ℚ
  best_bid_yes : ℚ
  best_bid_no : ℚ
  btc_target : ℚ
  btc_current : ℚ
  end_ts : ℚ
  deriving Repr, DecidableEq

/-- One `_MODEL_STATS` record. -/
structure ModelStat where
  trades : ℕ
  wins : ℕ
  pnl : ℚ
  deriving Repr, DecidableEq

/-- The four rolling `_MODEL_STATS` records. -/
structure ModelStatsIn where
  ta : ModelStat
  ll : ModelStat
  rg : ModelStat
  bk : ModelStat
  deriving Repr, DecidableEq

/-- `main.py: _model_weight`: `clip(0.8 + 0.4·(wins+1)/(trades+2) +
0.15·tanh(pnl/200), 0.7, 1.3)`, with `tanh` abstracted as `tanhQ`. -/
def model_weight (tanhQ : ℚ → ℚ) (s : ModelStat) : ℚ :=
  max (7/10) (min (13/10)
    (4/5 + (2/5) * (((s.wins : ℚ) + 1) / ((s.trades : ℚ) + 2)) +
      tanhQ (s.pnl / 200) * (3/20)))

/-- The per-second GBM update of `_mc_target_probs` as called from
`_model_compare`: `p · exp((mu − sig²/2)·dt + sig·√dt·z)` with `dt = 1`
(so `√dt = 1` exactly) and `sig = max(1e-8, sigma_per_s)`; `exp` is
abstracted as `expQ`. -/
def gbmStep (expQ : ℚ → ℚ) (drift_per_s sigma_per_s : ℚ) : ℚ → ℚ → ℚ :=
  fun p z =>
    p * expQ ((drift_per_s -
        max (1/100000000) sigma_per_s * max (1/100000000) sigma_per_s / 2) * 1 +
      max (1/100000000) sigma_per_s * 1 * z)

/-- `t_left` of `_model_compare`: `max(1, end_ts − now)` when the end
timestamp is known, else 900. -/
def t_leftOf (row : RowIn) (now_ts : ℚ) : ℚ :=
  if 0 < row.end_ts then max 1 (row.end_ts - now_ts) else 900

/-- The six component probabilities of `_model_compare` plus the Monte-Carlo
touch probability. -/
structure CompareProbs where
  ta : ℚ
  ll : ℚ
  rg : ℚ
  bk : ℚ
  anchor : ℚ
  mc : ℚ
  hit : ℚ
  deriving Repr, DecidableEq

/-- The probability computations of `_model_compare` (lines 431–466): TA, LL,
RG, BK are clipped rational formulas of the signal and book; ANCHOR uses the
abstracted `expQ`/`sqrtQ` (and is exactly 1/2 when the target or the current
price is missing); MC_CLOSE and the hit probability come from the embedded
`mc_target_probs` with the GBM step. -/
def compare_probs (expQ sqrtQ : ℚ → ℚ) (draws : ℕ → ℕ → ℚ)
    (row : RowIn) (sig : SignalIn) (now_ts : ℚ) : CompareProbs :=
  let p_ta := max (1/50) (min (49/50) sig.p_up)
  let p_ll := max (1/50) (min (49/50)
    (1/2 + (9/50) * max (-(3/2)) (min (3/2) (sig.lead_bps / 35))))
  let trend := |sig.rf| + |sig.rs|
  let w_trend := max (1/10) (min (9/10)
    (trend / max (trend + sig.sigma) (1/1000000)))
  let p_mr := max (1/50) (min (49/50) (1/2 - (7/20) * sig.rsi_n))
  let p_rg := max (1/50) (min (49/50) (w_trend * p_ta + (1 - w_trend) * p_mr))
  let t_left := t_leftOf row now_ts
  let sigma_ret := max sig.sigma (1/20000)
  let sigma_price := if 0 < row.btc_current then
      max (row.btc_current * sigma_ret * sqrtQ (max 5 t_left)) 8
    else 50
  let p_anchor := if 0 < row.btc_target ∧ 0 < row.btc_current then
      1 / (1 + expQ (-(max (-8) (min 8
        ((row.btc_current - row.btc_target) / sigma_price)))))
    else 1/2
  let mcr := mc_target_probs (gbmStep expQ (sig.rf / 20) (max (1/1000000) sig.sigma))
    draws row.btc_current row.btc_target t_left 700
  let sy := if 0 < row.best_ask_yes then
      max 0 (row.best_ask_yes - row.best_bid_yes) else 1/100
  let sn := if 0 < row.best_ask_no then
      max 0 (row.best_ask_no - row.best_bid_no) else 1/100
  let p_bk := max (1/50) (min (49/50) (1/2 + (3/25) * (sn - sy)))
  { ta := p_ta, ll := p_ll, rg := p_rg, bk := p_bk, anchor := p_anchor,
    mc := mcr.1, hit := mcr.2 }

/-- The six component weights of `_model_compare` (lines 482–487). -/
structure CompareWeights where
  ta : ℚ
  ll : ℚ
  rg : ℚ
  bk : ℚ
  anchor : ℚ
  mc : ℚ
  deriving Repr, DecidableEq

/-- TA/LL/RG/BK weights from the rolling stats; ANCHOR and MC_CLOSE weights
grow as `t_left` shrinks. -/
def compare_weights (tanhQ : ℚ → ℚ) (stats : ModelStatsIn) (t_left : ℚ) :
    CompareWeights :=
  { ta := model_weight tanhQ stats.ta, ll := model_weight tanhQ stats.ll,
    rg := model_weight tanhQ stats.rg, bk := model_weight tanhQ stats.bk,
    anchor := max (7/10) (min (11/5) (19/10 - min t_left 900 / 900)),
    mc := max (4/5) (min (12/5) (2 - min t_left 900 / 900)) }

/-- One entry of the `scored` list of `_model_compare`.  The Python tuple is
`(strength·weight, name, direction, strength)`; `rank` encodes the descending
lexicographic order of the six fixed names
(`"TA" > "RG" > "MC_CLOSE" > "LL" > "BK" > "ANCHOR"`) that Python's reverse
tuple sort uses as tie-break, and `p`/`name` are carried along for the output
fields (the selection never consults them beyond the tie-break). -/
structure ScoredEntry where
  score : ℚ
  rank : ℕ
  dir : String
  strength : ℚ
  p : ℚ
  name : String
  deriving Repr, DecidableEq

/-- Build one scored entry from a component probability and weight. -/
def mkScored (p w : ℚ) (rank : ℕ) (name : String) : ScoredEntry :=
  { score := |2 * p - 1| * w, rank := rank,
    dir := if 1/2 ≤ p then "BUY_YES" else "BUY_NO",
    strength := |2 * p - 1|, p := p, name := name }

/-- The `scored` list in the iteration order of the `probs` dict
(TA, LL, RG, BK, ANCHOR, MC_CLOSE). -/
def scored_list (P : CompareProbs) (w : CompareWeights) : List ScoredEntry :=
  [ mkScored P.ta w.ta 5 "TA", mkScored P.ll w.ll 2 "LL",
    mkScored P.rg w.rg 4 "RG", mkScored P.bk w.bk 1 "BK",
    mkScored P.anchor w.anchor 0 "ANCHOR", mkScored P.mc w.mc 3 "MC_CLOSE" ]

/-- `scored.sort(reverse=True); scored[0]`: the maximum under the
lexicographic order on `(score, rank)` (ranks are distinct, so the maximum is
unique and later tuple components never decide). -/
def pickBest : ScoredEntry → List ScoredEntry → ScoredEntry
  | best, [] => best
  | best, e :: rest =>
    pickBest (if best.score < e.score ∨
      (best.score = e.score ∧ best.rank < e.rank) then e else best) rest

/-- The winning scored entry of `_model_compare`. -/
def best_entry (P : CompareProbs) (w : CompareWeights) : ScoredEntry :=
  match scored_list P w with
  | [] => mkScored (1/2) 0 0 "-"
  | e :: rest => pickBest e rest

/-- `p_yes_ens = Σ wᵢ·pᵢ / Σ wᵢ` (the falsy-sum fallback `or 1.0`
included). -/
def p_yes_ensemble (P : CompareProbs) (w : CompareWeights) : ℚ :=
  let wsum := w.ta + w.ll + w.rg + w.bk + w.anchor + w.mc
  (P.ta * w.ta + P.ll * w.ll + P.rg * w.rg + P.bk * w.bk +
    P.anchor * w.anchor + P.mc * w.mc) / (if wsum = 0 then 1 else wsum)

/-- The output fields of `_model_compare` relevant to the claims (the
`models`/`weights` echo dicts are not modelled). -/
structure CompareOut where
  p_yes_ens : ℚ
  p_hit_target : ℚ
  best : String
  side : Option String
  confidence : ℤ
  consensus : ℤ
  deriving Repr, DecidableEq

/-- `main.py: _model_compare` (lines 430–514), assembled from the pieces
above.  The empty-`scored` branch of the source is kept although the list
always has six entries. -/
def model_compare (expQ sqrtQ tanhQ : ℚ → ℚ) (draws : ℕ → ℕ → ℚ)
    (stats : ModelStatsIn) (row : RowIn) (sig : SignalIn) (now_ts : ℚ) :
    CompareOut :=
  let P := compare_probs expQ sqrtQ draws row sig now_ts
  let w := compare_weights tanhQ stats (t_leftOf row now_ts)
  let scored := scored_list P w
  if scored.isEmpty then
    { p_yes_ens := p_yes_ensemble P w, p_hit_target := P.hit, best := "-",
      side := none, confidence := 0, consensus := 0 }
  else
    let bestE := best_entry P w
    let cnt := (scored.filter (fun x => decide (x.dir = bestE.dir))).length
    { p_yes_ens := p_yes_ensemble P w, p_hit_target := P.hit,
      best := bestE.name, side := some bestE.dir,
      confidence := max 1 (min 99 (pyRound (((3/5) * bestE.strength +
        (2/5) * ((cnt : ℚ) / (scored.length : ℚ))) * 100))),
      consensus := (cnt : ℤ) }

/-- Signal input for the C2 counterexample: flat momentum, strong positive
lead, oversold RSI, tiny p_up. -/
def c2Sig : SignalIn :=
  { p_up := 1/1000, rf := 0, rs := 0, sigma := 1/1000, rsi_n := -1,
    lead_bps := 105/2 }

/-- Row input for the C2 counterexample: wide NO spread, no BTC target
(`btc_target = 0`, `end_ts = 0`), so ANCHOR and MC_CLOSE are exactly 1/2 and
the abstracted `exp`/`sqrt` are never consulted. -/
def c2Row : RowIn :=
  { best_ask_yes := 1/2, best_ask_no := 19/20, best_bid_yes := 49/100,
    best_bid_no := 1/20, btc_target := 0, btc_current := 65000, end_ts := 0 }

/-- Fresh model stats (all zero) for the C2 counterexample: every weight is
exactly 1 and `tanh` is consulted only at 0, where the abstraction
`fun _ => 0` agrees with the real `tanh`. -/
def c2Stats : ModelStatsIn :=
  { ta := ⟨0, 0, 0⟩, ll := ⟨0, 0, 0⟩, rg := ⟨0, 0, 0⟩, bk := ⟨0, 0, 0⟩ }

/-- Ledger state with 200 USD cash, used to witness the amended C5 theorem. -/
def c5State : RunState := { cash_usd := 200 }

/-- Position opened from `c5State` with cap 100, fraction 0.10, confidence 60:
size `min(86, max(1, 20), 200) = 20`, entry 1/2, qty 40. -/
def c5Pos : PaperPosition :=
  { market_id := "m"
    market_name := "n"
    side := "BUY_YES"
    size_usd := 20
    qty := 40
    entry_price := 1/2
    opened_at := "t0"
    model := "TA" }

/-- State after the C5 witness open: 20 USD moved into the position. -/
def c5St1 : RunState := { cash_usd := 180, positions := [c5Pos] }

/-! ## Theorems -/

/-- A path of at least one step that ends at-or-above the target has touched
the target (the touch flag is updated after every step, including the last). -/
lemma mcPath_touched (step : ℚ → ℚ → ℚ) (target : ℚ) :
    ∀ (zs : List ℚ) (p : ℚ) (b : Bool), zs ≠ [] →
      target ≤ (mcPath step target p b zs).1 → (mcPath step target p b zs).2 = true := by
  intro zs
  induction zs with
  | nil => intro p b h; exact absurd rfl h
  | cons z zs ih =>
    intro p b _ hle
    rcases zs with _ | ⟨z', zs'⟩
    · simp only [mcPath] at hle ⊢
      simp only [Bool.or_eq_true, decide_eq_true_eq]
      exact Or.inr hle
    · exact ih _ _ (by simp) hle

/-- C10. For every input and every sequence of draws, the Monte-Carlo
estimator returns `(close_above_fraction, touch_fraction)` with
`0 ≤ close_above_fraction ≤ touch_fraction ≤ 1` (every path counted as
closing at-or-above the target is also counted as having touched it), and
returns exactly `(1/2, 1/2)` when the current price or the target is
non-positive. -/
theorem mc_target_probs_bounds (step : ℚ → ℚ → ℚ) (draws : ℕ → ℕ → ℚ)
    (current target t_left_s : ℚ) (paths : ℕ) (hp : 1 ≤ paths) :
    (0 ≤ (mc_target_probs step draws current target t_left_s paths).1 ∧
     (mc_target_probs step draws current target t_left_s paths).1 ≤
       (mc_target_probs step draws current target t_left_s paths).2 ∧
     (mc_target_probs step draws current target t_left_s paths).2 ≤ 1) ∧
    ((current ≤ 0 ∨ target ≤ 0) →
      mc_target_probs step draws current target t_left_s paths = (1/2, 1/2)) := by
  by_cases h : current ≤ 0 ∨ target ≤ 0
  · rw [mc_target_probs, if_pos h]
    norm_num
  · rw [mc_target_probs, if_neg h]
    refine ⟨⟨?_, ?_, ?_⟩, fun hc => absurd hc h⟩
    · exact div_nonneg (Nat.cast_nonneg _) (Nat.cast_nonneg _)
    · have hpq : (0:ℚ) < (paths : ℚ) := by
        exact_mod_cast lt_of_lt_of_le zero_lt_one hp
      have hmono : (mcRuns step draws current target t_left_s paths).countP
            (fun r => decide (target ≤ r.1)) ≤
          (mcRuns step draws current target t_left_s paths).countP
            (fun r => r.2) := by
        apply List.countP_mono_left
        intro r hr hdec
        obtain ⟨i, -, rfl⟩ := List.mem_map.mp hr
        apply mcPath_touched
        · have h1le : (1:ℤ) ≤ max 1 (pyTrunc (min 900 t_left_s)) := le_max_left _ _
          have h1n : 1 ≤ (max 1 (pyTrunc (min 900 t_left_s))).toNat := by
            omega
          simp only [ne_eq, List.map_eq_nil_iff, List.range_eq_nil]
          omega
        · exact of_decide_eq_true hdec
      exact (div_le_div_iff_of_pos_right hpq).mpr (by exact_mod_cast hmono)
    · have hpq : (0:ℚ) < (paths : ℚ) := by
        exact_mod_cast lt_of_lt_of_le zero_lt_one hp
      rw [div_le_one hpq]
      have hlen : (mcRuns step draws current target t_left_s paths).length = paths := by
        simp [mcRuns]
      calc ((mcRuns step draws current target t_left_s paths).countP
              (fun r => r.2) : ℚ)
          ≤ ((mcRuns step draws current target t_left_s paths).length : ℚ) := by
            exact_mod_cast List.countP_le_length _
        _ = (paths : ℚ) := by rw [hlen]

/-- C1. The close decision is exactly the first matching rule of the fixed
ordered ladder (resolve proxies, hard stop, flip stop, scalp exits, edge
exits, against-winner, time exits, take-profit ladder last); in particular
whenever the mark is at least 0.99 the decision is a full close with reason
`resolved_win_proxy`, regardless of any later rule's condition. -/
theorem close_ladder_first_match (c : CloseCtx) :
    closeDecision c = firstMatch (closeRules c) ∧
    (99/100 ≤ c.mark_price →
      closeDecision c = some ("resolved_win_proxy", 1)) := by
  constructor
  · simp only [closeDecision, closeRules, firstMatch, decide_eq_true_eq]
  · intro h
    rw [closeDecision, if_pos h]

/-- Witness for C1 at `c1Ctx` (mark 0.995, `u_pnl = 0.99`, `t_left = 10`). -/
theorem close_ladder_first_match_witness :
    closeDecision c1Ctx = firstMatch (closeRules c1Ctx) ∧
    closeDecision c1Ctx = some ("resolved_win_proxy", 1) :=
  ⟨(close_ladder_first_match c1Ctx).1,
   (close_ladder_first_match c1Ctx).2 (by norm_num [c1Ctx])⟩

/-- Witness for C10 at a concrete input: one path, one step, a constant step
function and target above the price, so both fractions are 0. -/
theorem mc_target_probs_bounds_witness :
    (0 ≤ (mc_target_probs (fun p _ => p) (fun _ _ => 0) 1 2 1 1).1 ∧
     (mc_target_probs (fun p _ => p) (fun _ _ => 0) 1 2 1 1).1 ≤
       (mc_target_probs (fun p _ => p) (fun _ _ => 0) 1 2 1 1).2 ∧
     (mc_target_probs (fun p _ => p) (fun _ _ => 0) 1 2 1 1).2 ≤ 1) ∧
    (((1:ℚ) ≤ 0 ∨ (2:ℚ) ≤ 0) →
      mc_target_probs (fun p _ => p) (fun _ _ => 0) 1 2 1 1 = (1/2, 1/2)) :=
  mc_target_probs_bounds (fun p _ => p) (fun _ _ => 0) 1 2 1 1 le_rfl

/-- C7. Opening a position at entry price `e > 0` with size `0 < s ≤ cash`
and immediately fully closing it at the same exit price `e` yields realized
pnl exactly `0`, leaves `realized_pnl_usd` unchanged and restores `cash_usd`
to its original value (exact arithmetic). -/
theorem open_close_same_price_roundtrip
    (state st1 st2 : RunState) (pos pos2 : PaperPosition)
    (mid name side model oat cat : String) (e s pnl : ℚ)
    (he : 0 < e) (hs : 0 < s) (hsc : s ≤ state.cash_usd)
    (hopen : open_position state mid name side e s model oat = .ok (st1, pos))
    (hclose : close_position st1 pos e cat = .ok (st2, pos2, pnl)) :
    pnl = 0 ∧ st2.cash_usd = state.cash_usd ∧
      st2.realized_pnl_usd = state.realized_pnl_usd := by
  have he' : e ≠ 0 := ne_of_gt he
  have hcond : ¬ (min s state.cash_usd ≤ 0 ∨ e ≤ 0) := by
    rw [min_eq_left hsc]; push_neg; exact ⟨hs, he⟩
  unfold open_position at hopen
  rw [if_neg hcond, min_eq_left hsc] at hopen
  simp only [Except.ok.injEq, Prod.mk.injEq] at hopen
  obtain ⟨hst1, hpos⟩ := hopen
  subst hst1
  unfold close_position close_fraction at hclose
  rw [if_neg (not_le.mpr he)] at hclose
  rw [if_neg (by norm_num : ¬ (max 0 (min 1 (1:ℚ)) ≤ 0))] at hclose
  subst hpos
  simp only [Except.ok.injEq, Prod.mk.injEq, max_self, min_self] at hclose
  obtain ⟨hst2, _, hpnl⟩ := hclose
  rw [(by norm_num : (0 ⊔ (1:ℚ)) = 1)] at hst2 hpnl
  have hqe : s / e * 1 * e = s := by field_simp
  refine ⟨?_, ?_, ?_⟩
  · rw [← hpnl, hqe]; ring
  · rw [← hst2]; simp only [hqe]; ring
  · rw [← hst2]; simp only []
    rw [hqe]; ring

/-- Witness for C7 at a concrete input (cash 10, entry 1/2, size 4). -/
theorem open_close_same_price_roundtrip_witness :
    (0:ℚ) = 0 ∧ rtSt2.cash_usd = rtState.cash_usd ∧
      rtSt2.realized_pnl_usd = rtState.realized_pnl_usd :=
  open_close_same_price_roundtrip rtState rtSt1 rtSt2 rtPos rtPos2
    "m" "n" "BUY_YES" "TA" "t0" "t1" (1/2) 4 0
    (by norm_num) (by norm_num) (by norm_num [rtState])
    (by norm_num [open_position, rtState, rtPos, rtSt1])
    (by norm_num [close_position, close_fraction, rtPos, rtPos2, rtSt1, rtSt2])

/-- C8. The ledger operations fail atomically on invalid inputs:
`open_position` with non-positive entry price or non-positive effective size
(`min(size, cash)` after the cash clamp) returns the `invalid_open` error, and
`close_fraction` with a non-positive exit price returns the `invalid_close`
error.  In this embedding an error result carries no successor state: the
caller's ledger is untouched, mirroring the source where the `raise` happens
before any mutation. -/
theorem ledger_invalid_input_atomic
    (state : RunState) (pos : PaperPosition)
    (mid name side model oat : String) (entry size exitp f : ℚ) :
    ((entry ≤ 0 ∨ min size state.cash_usd ≤ 0) →
      open_position state mid name side entry size model oat = .error "invalid_open") ∧
    (exitp ≤ 0 →
      close_fraction state pos exitp f = .error "invalid_close") := by
  constructor
  · intro h
    unfold open_position
    rw [if_pos (Or.symm h)]
  · intro h
    unfold close_fraction
    rw [if_pos h]

/-- Witness for C8: zero entry price and zero exit price at a concrete state. -/
theorem ledger_invalid_input_atomic_witness :
    open_position rtState "m" "n" "BUY_YES" 0 4 "TA" "t0" = .error "invalid_open" ∧
    close_fraction rtState rtPos 0 1 = .error "invalid_close" :=
  ⟨(ledger_invalid_input_atomic rtState rtPos "m" "n" "BUY_YES" "TA" "t0" 0 4 0 1).1
      (Or.inl le_rfl),
   (ledger_invalid_input_atomic rtState rtPos "m" "n" "BUY_YES" "TA" "t0" 0 4 0 1).2
      le_rfl⟩

/-- Helper: a successful `close_fraction` keeps cash non-negative when the
position quantity is non-negative and the exit price is positive. -/
lemma close_fraction_cash_nonneg
    (state : RunState) (pos : PaperPosition) (exitp f : ℚ)
    (st' : RunState) (p' : PaperPosition) (pnl : ℚ)
    (hc : 0 ≤ state.cash_usd) (hq : 0 ≤ pos.qty) (hx : 0 < exitp)
    (h : close_fraction state pos exitp f = .ok (st', p', pnl)) :
    0 ≤ st'.cash_usd := by
  unfold close_fraction at h
  rw [if_neg (not_le.mpr hx)] at h
  by_cases hf : max 0 (min 1 f) ≤ 0
  · rw [if_pos hf] at h
    simp only [Except.ok.injEq, Prod.mk.injEq] at h
    obtain ⟨hst, -⟩ := h
    rw [← hst]; exact hc
  · rw [if_neg hf] at h
    simp only [Except.ok.injEq, Prod.mk.injEq] at h
    obtain ⟨hst, -⟩ := h
    rw [← hst]
    have hf0 : 0 ≤ max 0 (min 1 f) := le_max_left _ _
    have : 0 ≤ pos.qty * max 0 (min 1 f) * exitp := by positivity
    simp only []
    linarith

/-- C9. Non-negative cash is an invariant of the ledger operations: starting
from a state with `cash_usd ≥ 0`, a successful `open_position` (which clamps
the opened notional to `min(requested size, cash)`), a successful
`close_fraction` with any exit price `> 0` and any fraction, and a successful
`close_position` all leave `cash_usd ≥ 0` (for positions with non-negative
quantity, as every position the ledger creates has). -/
theorem ledger_cash_nonneg
    (state : RunState) (pos : PaperPosition)
    (mid name side model oat cat : String) (entry size exitp f : ℚ) :
    (∀ st' p', 0 ≤ state.cash_usd →
      open_position state mid name side entry size model oat = .ok (st', p') →
      0 ≤ st'.cash_usd) ∧
    (∀ st' p' pnl, 0 ≤ state.cash_usd → 0 ≤ pos.qty → 0 < exitp →
      close_fraction state pos exitp f = .ok (st', p', pnl) →
      0 ≤ st'.cash_usd) ∧
    (∀ st' p' pnl, 0 ≤ state.cash_usd → 0 ≤ pos.qty → 0 < exitp →
      close_position state pos exitp cat = .ok (st', p', pnl) →
      0 ≤ st'.cash_usd) := by
  refine ⟨?_, ?_, ?_⟩
  · intro st' p' hc hok
    unfold open_position at hok
    by_cases hcond : min size state.cash_usd ≤ 0 ∨ entry ≤ 0
    · rw [if_pos hcond] at hok; cases hok
    · rw [if_neg hcond] at hok
      simp only [Except.ok.injEq, Prod.mk.injEq] at hok
      obtain ⟨hst, -⟩ := hok
      rw [← hst]
      simp only []
      have : min size state.cash_usd ≤ state.cash_usd := min_le_right _ _
      linarith
  · intro st' p' pnl hc hq hx hok
    exact close_fraction_cash_nonneg state pos exitp f st' p' pnl hc hq hx hok
  · intro st' p' pnl hc hq hx hok
    unfold close_position at hok
    rcases hcf : close_fraction state pos exitp 1 with e | ⟨st1, p1, pnl1⟩
    · rw [hcf] at hok; cases hok
    · rw [hcf] at hok
      simp only [Except.ok.injEq, Prod.mk.injEq] at hok
      obtain ⟨hst, -⟩ := hok
      rw [← hst]
      simp only []
      exact close_fraction_cash_nonneg state pos exitp 1 st1 p1 pnl1 hc hq hx hcf

/-- Witness for C9: the open from the round-trip scenario keeps cash at 6 ≥ 0. -/
theorem ledger_cash_nonneg_witness : 0 ≤ rtSt1.cash_usd :=
  (ledger_cash_nonneg rtState rtPos "m" "n" "BUY_YES" "TA" "t0" "t1"
      (1/2) 4 1 1).1 rtSt1 rtPos (by norm_num [rtState])
    (by norm_num [open_position, rtState, rtPos, rtSt1])

/-! ## Claim C3: invariants of the returned `MarketSnapshot`s -/

lemma le_foldl_max (b : ℚ) (l : List ℚ) : b ≤ l.foldl max b := by
  induction l generalizing b with
  | nil => simp
  | cons x xs ih => exact le_trans (le_max_left b x) (ih (max b x))

lemma foldl_max_le {c : ℚ} (b : ℚ) (l : List ℚ)
    (hb : b ≤ c) (hl : ∀ x ∈ l, x ≤ c) : l.foldl max b ≤ c := by
  induction l generalizing b with
  | nil => simpa
  | cons x xs ih =>
    exact ih (max b x) (max_le hb (hl x (List.mem_cons_self x xs)))
      (fun y hy => hl y (List.mem_cons_of_mem x hy))

lemma foldl_min_le (b : ℚ) (l : List ℚ) : l.foldl min b ≤ b := by
  induction l generalizing b with
  | nil => simp
  | cons x xs ih => exact le_trans (ih (min b x)) (min_le_left b x)

/-- The best bid is the maximum of positive prices, hence non-negative. -/
lemma best_bid_nonneg (levels : List Level) : 0 ≤ best_bid levels := by
  unfold best_bid
  rcases h : (levels.map Level.price).filter (fun p => decide (0 < p)) with _ | ⟨v, vs⟩
  · exact le_refl 0
  · show (0:ℚ) ≤ vs.foldl max v
    have hv : v ∈ (levels.map Level.price).filter (fun p => decide (0 < p)) := by
      rw [h]; exact List.mem_cons_self v vs
    have hv' : (0:ℚ) < v := by
      have := List.of_mem_filter hv
      simpa using this
    exact le_trans (le_of_lt hv') (le_foldl_max v vs)

/-- If all level prices are at most 1 then so is the best bid. -/
lemma best_bid_le_one (levels : List Level)
    (hb : ∀ l ∈ levels, l.price ≤ 1) : best_bid levels ≤ 1 := by
  unfold best_bid
  rcases h : (levels.map Level.price).filter (fun p => decide (0 < p)) with _ | ⟨v, vs⟩
  · norm_num
  · show vs.foldl max v ≤ 1
    have hmem : ∀ x ∈ v :: vs, x ≤ 1 := by
      intro x hx
      have hx' : x ∈ (levels.map Level.price).filter (fun p => decide (0 < p)) := by
        rw [h]; exact hx
      have hx'' : x ∈ levels.map Level.price := List.mem_of_mem_filter hx'
      obtain ⟨l, hl, rfl⟩ := List.mem_map.mp hx''
      exact hb l hl
    exact foldl_max_le v vs (hmem v (List.mem_cons_self v vs))
      (fun y hy => hmem y (List.mem_cons_of_mem v hy))

/-- If all level prices are at most 1 then so is the best ask. -/
lemma best_ask_le_one (levels : List Level)
    (hb : ∀ l ∈ levels, l.price ≤ 1) : best_ask levels ≤ 1 := by
  unfold best_ask
  rcases h : (levels.map Level.price).filter (fun p => decide (0 < p)) with _ | ⟨v, vs⟩
  · norm_num
  · show vs.foldl min v ≤ 1
    have hv : v ∈ (levels.map Level.price).filter (fun p => decide (0 < p)) := by
      rw [h]; exact List.mem_cons_self v vs
    have hv'' : v ∈ levels.map Level.price := List.mem_of_mem_filter hv
    obtain ⟨l, hl, rfl⟩ := List.mem_map.mp hv''
    exact le_trans (foldl_min_le _ vs) (hb l hl)

lemma fetch_mem_props (items : List FetchItem) :
    ∀ snap ∈ fetch_snapshots_from_refs items,
      (0 < snap.yes_ask ∧ 0 < snap.no_ask ∧
       0 ≤ snap.yes_bid ∧ 0 ≤ snap.no_bid) ∧
      (priceBounded items →
        snap.yes_bid ≤ 1 ∧ snap.yes_ask ≤ 1 ∧
        snap.no_bid ≤ 1 ∧ snap.no_ask ≤ 1) := by
  induction items with
  | nil => intro snap h; simp [fetch_snapshots_from_refs] at h
  | cons item rest ih =>
    intro snap hmem
    have hrest : snap ∈ fetch_snapshots_from_refs rest →
        (0 < snap.yes_ask ∧ 0 < snap.no_ask ∧
         0 ≤ snap.yes_bid ∧ 0 ≤ snap.no_bid) ∧
        (priceBounded (item :: rest) →
          snap.yes_bid ≤ 1 ∧ snap.yes_ask ≤ 1 ∧
          snap.no_bid ≤ 1 ∧ snap.no_ask ≤ 1) := by
      intro hmem'
      refine ⟨(ih snap hmem').1, fun hb => (ih snap hmem').2 ?_⟩
      intro it hit
      exact hb it (List.mem_cons_of_mem item hit)
    obtain ⟨ref, yb, nb⟩ := item
    rcases yb with _ | yBook
    · simp only [fetch_snapshots_from_refs] at hmem; exact hrest hmem
    rcases nb with _ | nBook
    · simp only [fetch_snapshots_from_refs] at hmem; exact hrest hmem
    simp only [fetch_snapshots_from_refs] at hmem
    by_cases h1 : best_ask yBook.asks ≤ 0 ∨ best_ask nBook.asks ≤ 0
    · rw [if_pos h1] at hmem; exact hrest hmem
    rw [if_neg h1] at hmem
    by_cases h2 : best_ask yBook.asks ≥ 197/200 ∧ best_ask nBook.asks ≥ 197/200 ∧
        best_bid yBook.bids ≤ 3/200 ∧ best_bid nBook.bids ≤ 3/200 ∧
        depth_usd yBook.bids 3 + depth_usd nBook.bids 3 < 25
    · rw [if_pos h2] at hmem; exact hrest hmem
    rw [if_neg h2] at hmem
    rcases List.mem_cons.mp hmem with hsnap | hmem'
    · push_neg at h1
      subst hsnap
      refine ⟨⟨h1.1, h1.2, best_bid_nonneg _, best_bid_nonneg _⟩, fun hb => ?_⟩
      obtain ⟨hbY, hbN⟩ := hb ⟨ref, some yBook, some nBook⟩
        (List.mem_cons_self _ rest)
      obtain ⟨hYbids, hYasks⟩ := hbY yBook rfl
      obtain ⟨hNbids, hNasks⟩ := hbN nBook rfl
      exact ⟨best_bid_le_one _ hYbids, best_ask_le_one _ hYasks,
        best_bid_le_one _ hNbids, best_ask_le_one _ hNasks⟩
    · exact hrest hmem'

/-- C3 (amended).  Snapshots returned by the fetcher always have strictly
positive best asks (a zero ask drops the snapshot) and non-negative best bids,
and when every input book level price is at most 1 all four sides are at most
1.  The source does not drop zero *bids* and does not enforce `bid ≤ ask`. -/
theorem fetch_snapshots_sides_amended (items : List FetchItem)
    (snap : MarketSnapshot) (hmem : snap ∈ fetch_snapshots_from_refs items) :
    (0 < snap.yes_ask ∧ 0 < snap.no_ask ∧
     0 ≤ snap.yes_bid ∧ 0 ≤ snap.no_bid) ∧
    (priceBounded items →
      snap.yes_bid ≤ 1 ∧ snap.yes_ask ≤ 1 ∧
      snap.no_bid ≤ 1 ∧ snap.no_ask ≤ 1) :=
  fetch_mem_props items snap hmem

/-- Counterexample to C3 as stated: the fetcher returns (rather than drops) a
snapshot whose `yes_bid` side is `0`, and also returns a snapshot violating
`yes_ask ≤ 1` and `no_bid ≤ no_ask` when the input book is out of range or
crossed. -/
theorem fetch_snapshots_invariant_counterexample :
    fetch_snapshots_from_refs [cx3Item1, cx3Item2] = [cx3Snap1, cx3Snap2] ∧
    cx3Snap1.yes_bid = 0 ∧ 1 < cx3Snap2.yes_ask ∧
    cx3Snap2.no_ask < cx3Snap2.no_bid := by
  refine ⟨?_, by norm_num [cx3Snap1], by norm_num [cx3Snap2], by norm_num [cx3Snap2]⟩
  norm_num [fetch_snapshots_from_refs, cx3Item1, cx3Item2, cx3Snap1, cx3Snap2,
    best_bid, best_ask, depth_usd]

/-- Witness for the amended C3 theorem on the concrete demo book. -/
theorem fetch_snapshots_sides_amended_witness :
    (0 < w3Snap.yes_ask ∧ 0 < w3Snap.no_ask ∧
     0 ≤ w3Snap.yes_bid ∧ 0 ≤ w3Snap.no_bid) ∧
    (priceBounded [w3Item] →
      w3Snap.yes_bid ≤ 1 ∧ w3Snap.yes_ask ≤ 1 ∧
      w3Snap.no_bid ≤ 1 ∧ w3Snap.no_ask ≤ 1) :=
  fetch_snapshots_sides_amended [w3Item] w3Snap
    (by norm_num [fetch_snapshots_from_refs, w3Item, w3Snap,
      best_bid, best_ask, depth_usd])

/-- C4 (amended).  A close whose reason is in `close_force_taker_reasons`
(default: `hard_stop_25`, `resolved_loss_proxy`, `flip_stop`) resolves
immediately at the taker price with execution tag `close_force_taker` and
discards any pending limit-close state — for every pending state, clock and
order.  (`resolved_win_proxy` is *not* in the default force set, see the
counterexample.) -/
theorem resolve_limit_close_force_taker
    (timeout_s reprice_s tick : ℚ) (force_reasons : List String) (now_ts : ℚ)
    (pending : Option PendingClose) (close_reason : String) (order : CloseOrder)
    (h : close_reason ∈ force_reasons) :
    resolve_limit_close timeout_s reprice_s tick force_reasons now_ts pending
        close_reason order =
      ((if 0 < order.taker_price then some order.taker_price else none),
       some "close_force_taker", none) := by
  unfold resolve_limit_close
  rw [if_pos h]

/-- Witness for C4 on a concrete forced close (`hard_stop_25`, taker 0.99),
with a pending limit state that gets discarded. -/
theorem resolve_limit_close_force_taker_witness :
    resolve_limit_close 20 4 (1/1000) defaultForceReasons 1000 (some c4Pend)
        "hard_stop_25" c4Order =
      ((if 0 < c4Order.taker_price then some c4Order.taker_price else none),
       some "close_force_taker", none) :=
  resolve_limit_close_force_taker 20 4 (1/1000) defaultForceReasons 1000
    (some c4Pend) "hard_stop_25" c4Order (by decide)

/-- Counterexample to C4's "in particular" clause: a BUY_YES position at mark
0.995 closes with reason `resolved_win_proxy` (first ladder rule), but
`resolved_win_proxy` is not in the default `close_force_taker_reasons`, so
with no prior pending state the limit-first path posts a pending limit at
0.991 and fills nothing this cycle — not an immediate taker fill. -/
theorem resolve_limit_close_win_proxy_counterexample :
    closeDecision c4Ctx = some ("resolved_win_proxy", 1) ∧
    "resolved_win_proxy" ∉ defaultForceReasons ∧
    resolve_limit_close 20 4 (1/1000) defaultForceReasons 1000 none
        "resolved_win_proxy" c4Order =
      (none, none, some c4PendWin) := by
  refine ⟨?_, by decide, ?_⟩
  · norm_num [closeDecision, c4Ctx]
  · simp [resolve_limit_close, defaultForceReasons, c4Order, c4PendWin,
      build_close_order, round_price, pyRoundDp, pyRound]
    norm_num

/-- C5 counterexample: with cash 5 and `max_trade_cash_fraction = 0.10` the
code's per-trade cash cap is `max(1, 0.5) = 1`, not `0.5`, so the opened size
is 1 USD while the claimed formula gives 0.5 USD. -/
theorem sizing_cash_floor_counterexample :
    size_usd 100 5 (1/10) (size_mul 60 false) = 1 ∧
    min (100 * size_mul 60 false) (min ((5:ℚ) * (1/10)) 5) = 1/2 := by
  constructor
  · norm_num [size_usd, size_mul]
  · norm_num [size_mul]

/-- C5 (amended).  For every approved open (positive entry, computed size at
least the 1 USD minimum enforced by `run_once`), the position notional equals
`min(trade_cap·conf_mult, max(1, cash·max_trade_cash_fraction), cash)` with
`conf_mult = clip(0.5 + 0.6·conf/100, 0.5, 1.0)` (capped at 0.65 for scalp
entries): the cash-fraction term is floored at 1 USD by the code. -/
theorem open_size_amended (state : RunState) (cap frac conf : ℚ) (scalp : Bool)
    (entry : ℚ) (mid name side model oat : String)
    (st' : RunState) (pos : PaperPosition)
    (hentry : 0 < entry)
    (hmin : 1 ≤ size_usd cap state.cash_usd frac (size_mul conf scalp))
    (hopen : open_position state mid name side entry
      (size_usd cap state.cash_usd frac (size_mul conf scalp)) model oat =
      .ok (st', pos)) :
    pos.size_usd = min (cap * size_mul conf scalp)
      (min (max 1 (state.cash_usd * frac)) state.cash_usd) := by
  have hle : size_usd cap state.cash_usd frac (size_mul conf scalp) ≤
      state.cash_usd := min_le_of_right_le (min_le_right _ _)
  have hminq : min (size_usd cap state.cash_usd frac (size_mul conf scalp))
      state.cash_usd = size_usd cap state.cash_usd frac (size_mul conf scalp) :=
    min_eq_left hle
  have hcond : ¬ (min (size_usd cap state.cash_usd frac (size_mul conf scalp))
      state.cash_usd ≤ 0 ∨ entry ≤ 0) := by
    rw [hminq]; push_neg
    exact ⟨lt_of_lt_of_le zero_lt_one hmin, hentry⟩
  unfold open_position at hopen
  rw [if_neg hcond, hminq] at hopen
  simp only [Except.ok.injEq, Prod.mk.injEq] at hopen
  obtain ⟨-, hpos⟩ := hopen
  rw [← hpos]
  rfl

/-- Witness for the amended C5 theorem at cash 200, cap 100, conf 60. -/
theorem open_size_amended_witness :
    c5Pos.size_usd = min (100 * size_mul 60 false)
      (min (max 1 (c5State.cash_usd * (1/10))) c5State.cash_usd) :=
  open_size_amended c5State 100 (1/10) 60 false (1/2) "m" "n" "BUY_YES" "TA" "t0"
    c5St1 c5Pos (by norm_num)
    (by norm_num [size_usd, size_mul, c5State])
    (by norm_num [open_position, size_usd, size_mul, c5State, c5Pos, c5St1])

/-- C6.  After a losing `BUY_NO` full close at `t = 0` with base cooldown
120 s, `BUY_NO` multiplier 1.35 and the same-side recent-loss multiplier
1.35 (winner side still `BUY_NO`, benign close reason), the effective
cooldown is exactly 218.7 s; for every `t < 218.7` the cooldown check fails
and both open paths (`normal_open_ok`, `scalp_open_ok`) are denied whatever
the other guard inputs are, while at `t = 220` the cooldown check passes. -/
theorem reentry_cooldown_denies_then_allows
    (t : ℚ) (ht : t < 2187/10)
    (opn : Bool) (conf conf_floor consensus consensus_floor : ℚ)
    (side_edge required_edge : ℚ) (persist open_count max_open : ℕ)
    (lcb lsb ia : Bool) (iside : Option String) (ibps sreq iedge tls : ℚ) :
    effective_cooldown 120 240 (6/5) (27/20) "time_lt_45s" "BUY_NO" "BUY_NO"
        (-1) = 2187/10 ∧
    cool_ok t 0 (2187/10) 0 0 = false ∧
    normal_open_ok opn conf conf_floor consensus consensus_floor side_edge
        required_edge persist open_count max_open (cool_ok t 0 (2187/10) 0 0)
        lcb lsb ia = false ∧
    scalp_open_ok opn iside ibps sreq iedge open_count max_open
        (cool_ok t 0 (2187/10) 0 0) tls = false ∧
    cool_ok 220 0 (2187/10) 0 0 = true := by
  have hcd : effective_cooldown 120 240 (6/5) (27/20) "time_lt_45s" "BUY_NO"
      "BUY_NO" (-1) = 2187/10 := by
    simp [effective_cooldown, flipCooldownReasons]
    norm_num
  have hcool : cool_ok t 0 (2187/10) 0 0 = false := by
    have hn : ¬ (2187/10 < t) := not_lt.mpr (le_of_lt ht)
    simp [cool_ok, sub_zero, hn]
  refine ⟨hcd, hcool, ?_, ?_, ?_⟩
  · simp [normal_open_ok, hcool]
  · simp [scalp_open_ok, hcool]
  · norm_num [cool_ok]

/-- Witness for C6 at `t = 200 < 218.7` with otherwise-passing guard inputs
(confidence 99 over floor 52, consensus 6 over 4, edge 0.10 over 0.04,
persistence 5, no blocks): the open is denied purely by the cooldown. -/
theorem reentry_cooldown_denies_then_allows_witness :
    effective_cooldown 120 240 (6/5) (27/20) "time_lt_45s" "BUY_NO" "BUY_NO"
        (-1) = 2187/10 ∧
    cool_ok 200 0 (2187/10) 0 0 = false ∧
    normal_open_ok true 99 52 6 4 (1/10) (1/25) 5 0 2
        (cool_ok 200 0 (2187/10) 0 0) false false false = false ∧
    scalp_open_ok true (some "BUY_YES") 12 9 (1/10) 0 2
        (cool_ok 200 0 (2187/10) 0 0) 600 = false ∧
    cool_ok 220 0 (2187/10) 0 0 = true :=
  reentry_cooldown_denies_then_allows 200 (by norm_num) true 99 52 6 4 (1/10)
    (1/25) 5 0 2 false false false (some "BUY_YES") 12 9 (1/10) 600

/-- Any property that holds for the seed and every list element holds for the
entry `pickBest` selects. -/
lemma pickBest_prop (Q : ScoredEntry → Prop) (e : ScoredEntry)
    (l : List ScoredEntry) (he : Q e) (hl : ∀ x ∈ l, Q x) :
    Q (pickBest e l) := by
  induction l generalizing e with
  | nil => exact he
  | cons x xs ih =>
    show Q (pickBest (if e.score < x.score ∨
      (e.score = x.score ∧ e.rank < x.rank) then x else e) xs)
    apply ih
    · split_ifs
      · exact hl x (List.mem_cons_self x xs)
      · exact he
    · exact fun y hy => hl y (List.mem_cons_of_mem x hy)

/-- The direction of every scored entry is `BUY_YES` iff its own component
probability is at least 1/2; the selected best entry inherits this. -/
lemma best_entry_dir_iff (P : CompareProbs) (w : CompareWeights) :
    (best_entry P w).dir = "BUY_YES" ↔ 1/2 ≤ (best_entry P w).p := by
  have hQ : ∀ (p wq : ℚ) (r : ℕ) (n : String),
      (mkScored p wq r n).dir = "BUY_YES" ↔ 1/2 ≤ (mkScored p wq r n).p := by
    intro p wq r n
    simp only [mkScored]
    split_ifs with h
    · simpa using h
    · simp only [show (("BUY_NO" : String) = "BUY_YES") ↔ False from by simp,
        false_iff, not_le]
      exact not_le.mp h
  show (pickBest (mkScored P.ta w.ta 5 "TA")
      [mkScored P.ll w.ll 2 "LL", mkScored P.rg w.rg 4 "RG",
       mkScored P.bk w.bk 1 "BK", mkScored P.anchor w.anchor 0 "ANCHOR",
       mkScored P.mc w.mc 3 "MC_CLOSE"]).dir = "BUY_YES" ↔
    1/2 ≤ (pickBest (mkScored P.ta w.ta 5 "TA")
      [mkScored P.ll w.ll 2 "LL", mkScored P.rg w.rg 4 "RG",
       mkScored P.bk w.bk 1 "BK", mkScored P.anchor w.anchor 0 "ANCHOR",
       mkScored P.mc w.mc 3 "MC_CLOSE"]).p
  apply pickBest_prop (fun x => x.dir = "BUY_YES" ↔ 1/2 ≤ x.p)
  · exact hQ _ _ _ _
  · intro x hx
    simp only [List.mem_cons, List.not_mem_nil, or_false] at hx
    rcases hx with rfl | rfl | rfl | rfl | rfl
    all_goals exact hQ _ _ _ _

/-- C2 (amended).  The predicted side of `_model_compare` is the direction of
the best-scoring component (maximal `strength·weight`, Python tuple-order
tie-break): it is `BUY_YES` iff the *best component's* probability is at
least 1/2.  The ensemble probability `p_yes_ens` does not determine the
side (see the counterexample). -/
theorem model_compare_side_amended (expQ sqrtQ tanhQ : ℚ → ℚ)
    (draws : ℕ → ℕ → ℚ) (stats : ModelStatsIn) (row : RowIn)
    (sig : SignalIn) (now_ts : ℚ) :
    (model_compare expQ sqrtQ tanhQ draws stats row sig now_ts).side =
      some (best_entry (compare_probs expQ sqrtQ draws row sig now_ts)
        (compare_weights tanhQ stats (t_leftOf row now_ts))).dir ∧
    ((best_entry (compare_probs expQ sqrtQ draws row sig now_ts)
        (compare_weights tanhQ stats (t_leftOf row now_ts))).dir = "BUY_YES" ↔
      1/2 ≤ (best_entry (compare_probs expQ sqrtQ draws row sig now_ts)
        (compare_weights tanhQ stats (t_leftOf row now_ts))).p) :=
  ⟨rfl, best_entry_dir_iff _ _⟩

/-- Counterexample to C2 as stated: at `c2Sig`/`c2Row`/`c2Stats` the
best-scoring component is TA (strength 0.96) pointing `BUY_NO`, so the
predicted side is `BUY_NO`, while the ensemble probability is
`15569/29500 ≈ 0.528 ≥ 0.5`.  The abstracted `exp`, `sqrt`, `tanh` and the
RNG are instantiated with functions that agree with the real ones at every
consulted point (`tanh 0 = 0`; `exp`/`sqrt`/draws are never consulted because
`btc_target = 0`). -/
theorem model_compare_side_counterexample :
    (model_compare (fun _ => 1) (fun q => q) (fun _ => 0) (fun _ _ => 0)
        c2Stats c2Row c2Sig 0).side = some "BUY_NO" ∧
    1/2 ≤ (model_compare (fun _ => 1) (fun q => q) (fun _ => 0) (fun _ _ => 0)
        c2Stats c2Row c2Sig 0).p_yes_ens ∧
    ¬ ((model_compare (fun _ => 1) (fun q => q) (fun _ => 0) (fun _ _ => 0)
        c2Stats c2Row c2Sig 0).side = some "BUY_YES" ↔
      1/2 ≤ (model_compare (fun _ => 1) (fun q => q) (fun _ => 0) (fun _ _ => 0)
        c2Stats c2Row c2Sig 0).p_yes_ens) := by
  have h1 : (model_compare (fun _ => 1) (fun q => q) (fun _ => 0) (fun _ _ => 0)
      c2Stats c2Row c2Sig 0).side = some "BUY_NO" := by
    have e1 : |(24/25 : ℚ)| = 24/25 := by norm_num
    have e2 : |(27/50 : ℚ)| = 27/50 := by norm_num
    have e3 : |(267/500 : ℚ)| = 267/500 := by norm_num
    have e4 : |(267/1250 : ℚ)| = 267/1250 := by norm_num
    have e5 : |(0 : ℚ)| = 0 := abs_zero
    norm_num [model_compare, compare_probs, compare_weights, model_weight,
      t_leftOf, scored_list, mkScored, best_entry, pickBest, p_yes_ensemble,
      mc_target_probs, c2Sig, c2Row, c2Stats, e1, e2, e3, e4, e5]
  have h2 : 1/2 ≤ (model_compare (fun _ => 1) (fun q => q) (fun _ => 0)
      (fun _ _ => 0) c2Stats c2Row c2Sig 0).p_yes_ens := by
    have e1 : |(24/25 : ℚ)| = 24/25 := by norm_num
    have e2 : |(27/50 : ℚ)| = 27/50 := by norm_num
    have e3 : |(267/500 : ℚ)| = 267/500 := by norm_num
    have e4 : |(267/1250 : ℚ)| = 267/1250 := by norm_num
    have e5 : |(0 : ℚ)| = 0 := abs_zero
    norm_num [model_compare, compare_probs, compare_weights, model_weight,
      t_leftOf, scored_list, mkScored, best_entry, pickBest, p_yes_ensemble,
      mc_target_probs, c2Sig, c2Row, c2Stats, e1, e2, e3, e4, e5]
  refine ⟨h1, h2, fun hiff => ?_⟩
  have := hiff.mpr h2
  rw [h1] at this
  exact absurd this (by decide)

end PolymarketMvp
